import Mathlib

/-!
Verification of the SuperAGI SearchAPI tool plugin
(`searchapi_tool.py`, `searchapi_toolkit.py`).

The Python code is shallowly embedded:

* Python values that flow through the pipeline (JSON response bodies,
  model-response dicts, document fields) are modelled by the inductive
  `PyVal`; Python exceptions (`KeyError`, `TypeError`, `AttributeError`)
  become `Except PyErr`.
* The HTTP layer is modelled by its observable data: the request the code
  constructs (`PostRequest`) and the response the API hands back
  (`HttpResponse`, with the body already parsed into a `PyVal`).
* The language-model collaborator `self.llm.chat_completion` is an opaque
  external service: it is passed in as a function from the assembled
  prompt (the single system message's content) to the `PyVal` it returns.
* Python `str.replace` is `pyReplace` on character lists, Python
  `str(list)`/`repr` is `pyStrList`/`PyVal.pyRepr`, and `json.dumps` of a
  flat string dict is `jsonDumpsStringDict`.
-/

set_option maxRecDepth 100000

/-- Decidable equality of `Except` results, for evaluating the pipeline
on concrete inputs. -/
instance {ε α : Type} [DecidableEq ε] [DecidableEq α] :
    DecidableEq (Except ε α) := fun a b =>
  match a, b with
  | Except.ok x, Except.ok y =>
    if h : x = y then Decidable.isTrue (congrArg Except.ok h)
    else Decidable.isFalse (fun hc => h (Except.ok.inj hc))
  | Except.error x, Except.error y =>
    if h : x = y then Decidable.isTrue (congrArg Except.error h)
    else Decidable.isFalse (fun hc => h (Except.error.inj hc))
  | Except.ok _, Except.error _ => Decidable.isFalse (fun hc => Except.noConfusion hc)
  | Except.error _, Except.ok _ => Decidable.isFalse (fun hc => Except.noConfusion hc)

/-- Python exception kinds that the embedded code can raise. -/
inductive PyErr where
  | keyError
  | typeError
  | attributeError
deriving DecidableEq, Repr

/-- A Python value, as produced by parsing the JSON bodies that flow
through `searchapi_tool.py` (strings, `None`, integers, lists, dicts). -/
inductive PyVal where
  | none
  | str (s : String)
  | int (n : Int)
  | list (xs : List PyVal)
  | dict (entries : List (String × PyVal))

mutual

/-- Structural equality on Python values (Python `==` restricted to the
JSON-like fragment modelled here). -/
def PyVal.beq : PyVal → PyVal → Bool
  | .none, .none => true
  | .str a, .str b => a == b
  | .int a, .int b => a == b
  | .list xs, .list ys => beqPyList xs ys
  | .dict es, .dict fs => beqPyEntries es fs
  | _, _ => false

/-- Elementwise equality of Python lists. -/
def beqPyList : List PyVal → List PyVal → Bool
  | [], [] => true
  | x :: xs, y :: ys => PyVal.beq x y && beqPyList xs ys
  | _, _ => false

/-- Elementwise equality of Python dict entry lists. -/
def beqPyEntries : List (String × PyVal) → List (String × PyVal) → Bool
  | [], [] => true
  | (k, v) :: es, (l, w) :: fs => k == l && PyVal.beq v w && beqPyEntries es fs
  | _, _ => false

end

instance : BEq PyVal := ⟨PyVal.beq⟩

/-- Python `v is None`. -/
def PyVal.isNone : PyVal → Bool
  | .none => true
  | _ => false

/-- Python truthiness, as used by `if results:` and
`if search_results and search_results["results"]["documents"]:`. -/
def PyVal.truthy : PyVal → Bool
  | .none => false
  | .str s => !s.isEmpty
  | .int n => n != 0
  | .list xs => !xs.isEmpty
  | .dict es => !es.isEmpty

/-- Python subscript `v[k]` with a string key: a dict lookup that raises
`KeyError` when the key is absent and `TypeError` on a non-dict. -/
def PyVal.getItem : PyVal → String → Except PyErr PyVal
  | .dict es, k =>
    match es.lookup k with
    | Option.some v => Except.ok v
    | Option.none => Except.error PyErr.keyError
  | _, _ => Except.error PyErr.typeError

/-- Python `v.get(k)`: the dict method returning `None` for an absent key;
calling `.get` on a non-dict raises `AttributeError`. -/
def PyVal.getOpt : PyVal → String → Except PyErr PyVal
  | .dict es, k => Except.ok ((es.lookup k).getD PyVal.none)
  | _, _ => Except.error PyErr.attributeError

/-- `v.isDict` tells whether a Python value is a dict. -/
def PyVal.isDict : PyVal → Bool
  | .dict _ => true
  | _ => false

/-- Total dict field access: the value `v.get(k)` yields on a dict
(`None` when absent), and `None` on non-dicts. -/
def pyGetD : PyVal → String → PyVal
  | .dict es, k => (es.lookup k).getD PyVal.none
  | _, _ => PyVal.none

/-- Does `pat` occur as a contiguous substring of `s`?  (Python `in` on
strings; also the notion of occurrence behind `str.replace`.) -/
def occursIn (pat : List Char) : List Char → Bool
  | [] => pat.isEmpty
  | c :: rest => pat.isPrefixOf (c :: rest) || occursIn pat rest

/-- Python `k in v`: key membership for dicts, element membership for
lists, substring test for strings, `TypeError` otherwise. -/
def pyInOp (k : String) : PyVal → Except PyErr Bool
  | .dict es => Except.ok ((es.lookup k).isSome)
  | .list xs => Except.ok (xs.contains (PyVal.str k))
  | .str s => Except.ok (occursIn k.data s.data)
  | _ => Except.error PyErr.typeError

/-- `strContains s sub` : `sub` occurs as a substring of `s`. -/
def strContains (s sub : String) : Bool := occursIn sub.data s.data

/-- Left-to-right scan of Python `str.replace`, with a fuel bound on the
number of scan steps; one unit of fuel is spent per position examined, so
fuel `s.length` always suffices. -/
def pyReplaceFuel : Nat → List Char → List Char → List Char → List Char
  | 0, s, _, _ => s
  | fuel + 1, s, pat, rep =>
    match s with
    | [] => []
    | c :: rest =>
      if pat.isPrefixOf (c :: rest) && !pat.isEmpty then
        rep ++ pyReplaceFuel fuel ((c :: rest).drop pat.length) pat rep
      else
        c :: pyReplaceFuel fuel rest pat rep

/-- Python `str.replace pat rep`, on character lists: scan left to right,
replacing each non-overlapping occurrence of `pat`.  (The code only ever
calls it with the nonempty literals `"{snippets}"` and `"{query}"`; for an
empty pattern this model returns the string unchanged.) -/
def pyReplace (s pat rep : List Char) : List Char :=
  pyReplaceFuel s.length s pat rep

/-- Python `str.replace` on `String`s. -/
def strReplace (s pat rep : String) : String :=
  String.mk (pyReplace s.data pat.data rep.data)

/-- Hexadecimal digit character (lowercase, as Python prints them). -/
def hexDigit (n : Nat) : Char :=
  if n < 10 then Char.ofNat (48 + n) else Char.ofNat (87 + n)

/-- Two lowercase hex digits for a byte value. -/
def hex2 (n : Nat) : String :=
  String.mk [hexDigit (n / 16 % 16), hexDigit (n % 16)]

/-- Four lowercase hex digits for a 16-bit value. -/
def hex4 (n : Nat) : String :=
  String.mk [hexDigit (n / 4096 % 16), hexDigit (n / 256 % 16),
             hexDigit (n / 16 % 16), hexDigit (n % 16)]

/-- The single-quote character. -/
def sqChar : Char := Char.ofNat 39

/-- The double-quote character. -/
def dqChar : Char := Char.ofNat 34

/-- How Python `repr` escapes one character of a string literal, given the
chosen surrounding quote: backslash and the quote are backslash-escaped,
newline/carriage-return/tab print as `\n`/`\r`/`\t`, other ASCII control
characters as `\xhh`.  (Printable characters, including non-ASCII ones,
are kept as-is; Python escapes non-printable non-ASCII code points too,
which this model does not need for the strings at hand.) -/
def pyEscapeChar (q c : Char) : String :=
  if c = '\\' then String.mk ['\\', '\\']
  else if c = q then String.mk ['\\', q]
  else if c = '\n' then "\\n"
  else if c = '\r' then "\\r"
  else if c = '\t' then "\\t"
  else if c.toNat < 32 || c.toNat = 127 then "\\x" ++ hex2 c.toNat
  else String.singleton c

/-- Python `repr` of a string: single-quoted, unless the string contains a
single quote and no double quote, in which case double-quoted. -/
def pyReprStr (s : String) : String :=
  let q : Char :=
    if s.data.contains sqChar && !(s.data.contains dqChar) then dqChar else sqChar
  String.singleton q ++ String.join (s.data.map (pyEscapeChar q)) ++ String.singleton q

mutual

/-- Python `repr` of a value (`str(x)` for lists delegates to this). -/
def PyVal.pyRepr : PyVal → String
  | .none => "None"
  | .str s => pyReprStr s
  | .int n => toString n
  | .list xs => "[" ++ String.intercalate ", " (pyReprList xs) ++ "]"
  | .dict es => "\x7b" ++ String.intercalate ", " (pyReprEntries es) ++ "\x7d"

/-- `repr` of each element of a Python list. -/
def pyReprList : List PyVal → List String
  | [] => []
  | v :: vs => PyVal.pyRepr v :: pyReprList vs

/-- `repr` of each `key: value` entry of a Python dict. -/
def pyReprEntries : List (String × PyVal) → List String
  | [] => []
  | (k, v) :: es => (pyReprStr k ++ ": " ++ PyVal.pyRepr v) :: pyReprEntries es

end

/-- Python `str(snippets)` for the snippet list handed to the prompt
template: the `repr` of the list. -/
def pyStrList (xs : List PyVal) : String :=
  PyVal.pyRepr (PyVal.list xs)

/-- How `json.dumps` escapes one character inside a JSON string (default
`ensure_ascii=True`): the two-character escapes for quote, backslash,
backspace, form feed, newline, carriage return and tab, `\uXXXX` for other
control characters and all non-ASCII characters (surrogate pairs beyond
the BMP). -/
def jsonEscapeChar (c : Char) : String :=
  if c = dqChar then String.mk ['\\', dqChar]
  else if c = '\\' then String.mk ['\\', '\\']
  else if c.toNat = 8 then "\\b"
  else if c.toNat = 12 then "\\f"
  else if c = '\n' then "\\n"
  else if c = '\r' then "\\r"
  else if c = '\t' then "\\t"
  else if c.toNat < 32 then "\\u" ++ hex4 c.toNat
  else if c.toNat < 127 then String.singleton c
  else if c.toNat < 65536 then "\\u" ++ hex4 c.toNat
  else
    "\\u" ++ hex4 (55296 + (c.toNat - 65536) / 1024) ++
      "\\u" ++ hex4 (56320 + (c.toNat - 65536) % 1024)

/-- The JSON encoding of a string (`json.dumps` of a `str`). -/
def jsonQuote (s : String) : String :=
  String.singleton dqChar ++ String.join (s.data.map jsonEscapeChar) ++
    String.singleton dqChar

/-- `json.dumps` of a flat dict whose keys and values are strings, with
the default separators (`", "` and `": "`).  `search` only ever dumps
`{"search_term": search_term}`. -/
def jsonDumpsStringDict (es : List (String × String)) : String :=
  "\x7b" ++
    String.intercalate ", "
      (es.map fun kv => jsonQuote kv.1 ++ ": " ++ jsonQuote kv.2) ++
    "\x7d"

/-- The observable data of the single `requests.post` call that
`send_post_request` makes: target URL, headers, and the body string. -/
structure PostRequest where
  url : String
  headers : List (String × String)
  body : String
deriving DecidableEq, Repr

/-- The POST request `send_post_request` constructs (lines 26-35 of
`searchapi_tool.py`): the `x-api-key` and `Content-Type` headers, and the
body `json.dumps(data)`. -/
def send_post_request_request (api_url api_key : String)
    (data : List (String × String)) : PostRequest :=
  { url := api_url
    headers := [("x-api-key", api_key), ("Content-Type", "application/json")]
    body := jsonDumpsStringDict data }

/-- The one request `SearchAPITool.search` issues (lines 81-86):
`{api_url}/document?offset=0&limit=5` with body
`{"search_term": search_term}`. -/
def searchRequest (api_url api_key search_term : String) : PostRequest :=
  send_post_request_request (api_url ++ "/document?offset=0&limit=5") api_key
    [("search_term", search_term)]

/-- An HTTP response from the search API: the status code and the body,
already parsed into a Python value (`response.json()`). -/
structure HttpResponse where
  status : Nat
  body : PyVal

/-- Response handling of `send_post_request` (lines 38-45): the parsed
JSON body on status 200, `None` (after printing the failure) otherwise. -/
def send_post_request (resp : HttpResponse) : Option PyVal :=
  if resp.status = 200 then Option.some resp.body else Option.none

/-- The summarization prompt template of `summarise_result` (lines
111-114), with its exact literal text including the indentation of the
triple-quoted Python string. -/
def summarizePromptTemplate : String :=
  "Summarize the following text `{snippets}`\n            Write a concise or as descriptive as necessary and attempt to\n            answer the query: `{query}` as best as possible. Use markdown formatting for\n            longer responses."

/-- The template text before the `{snippets}` placeholder. -/
def tmplA : String := "Summarize the following text `"

/-- The template text between the `{snippets}` and `{query}`
placeholders. -/
def tmplB : String := "`\n            Write a concise or as descriptive as necessary and attempt to\n            answer the query: `"

/-- The template text after the `{query}` placeholder. -/
def tmplC : String := "` as best as possible. Use markdown formatting for\n            longer responses."

/-- The prompt `summarise_result` assembles (lines 116-117):
`template.replace("{snippets}", str(snippets)).replace("{query}", query)`. -/
def assemblePrompt (query : String) (snippets : List PyVal) : String :=
  strReplace (strReplace summarizePromptTemplate "{snippets}" (pyStrList snippets))
    "{query}" query

/-- The same two substitutions performed in the opposite order; the spec
asserts the order is irrelevant. -/
def assemblePromptSwapped (query : String) (snippets : List PyVal) : String :=
  strReplace (strReplace summarizePromptTemplate "{query}" query)
    "{snippets}" (pyStrList snippets)

/-- Lines 122-124 of `summarise_result`, applied to the value the model
returned: `if 'error' in result and result['message'] is not None:` report
`result['message']` to `ErrorHandler.handle_openai_errors`, then
`return result["content"]`.  The result pairs the message routed to the
error handler (if any) with the returned value. -/
def summariseHandle (result : PyVal) : Except PyErr (Option PyVal × PyVal) :=
  match pyInOp "error" result with
  | Except.error e => Except.error e
  | Except.ok hasErr =>
    if hasErr then
      match PyVal.getItem result "message" with
      | Except.error e => Except.error e
      | Except.ok msg =>
        if msg.isNone then
          match PyVal.getItem result "content" with
          | Except.error e => Except.error e
          | Except.ok c => Except.ok (Option.none, c)
        else
          match PyVal.getItem result "content" with
          | Except.error e => Except.error e
          | Except.ok c => Except.ok (Option.some msg, c)
    else
      match PyVal.getItem result "content" with
      | Except.error e => Except.error e
      | Except.ok c => Except.ok (Option.none, c)

/-- `SearchAPITool.summarise_result` (lines 100-124).  The language-model
collaborator is the function `llm` from the content of the single system
message (the assembled prompt) to the value `chat_completion` returns. -/
def summarise_result (llm : String → PyVal) (query : String)
    (snippets : List PyVal) : Except PyErr (Option PyVal × PyVal) :=
  summariseHandle (llm (assemblePrompt query snippets))

/-- The `article_ids.append(hit.get("document_id"))` side of the loop at
lines 90-92: the `document_id` field of each hit, in response order. -/
def hitIds : List PyVal → Except PyErr (List PyVal)
  | [] => Except.ok []
  | h :: rest =>
    match PyVal.getOpt h "document_id" with
    | Except.error e => Except.error e
    | Except.ok v =>
      match hitIds rest with
      | Except.error e => Except.error e
      | Except.ok vs => Except.ok (v :: vs)

/-- The `results.append(hit.get("clean_text"))` side of the loop at lines
90-92: the `clean_text` field of each hit, in response order. -/
def hitTexts : List PyVal → Except PyErr (List PyVal)
  | [] => Except.ok []
  | h :: rest =>
    match PyVal.getOpt h "clean_text" with
    | Except.error e => Except.error e
    | Except.ok v =>
      match hitTexts rest with
      | Except.error e => Except.error e
      | Except.ok vs => Except.ok (v :: vs)

/-- Python iteration over the `documents` value (`for hit in ...`): lists
yield their elements, strings their characters, dicts their keys; other
values are not iterable. -/
def pyIter : PyVal → Except PyErr (List PyVal)
  | .list xs => Except.ok xs
  | .str s => Except.ok (s.data.map fun c => PyVal.str (String.singleton c))
  | .dict es => Except.ok (es.map fun kv => PyVal.str kv.1)
  | _ => Except.error PyErr.typeError

/-- The items of `("- " + article_id for article_id in article_ids)`:
`"- " + x` raises `TypeError` unless `x` is a string. -/
def dashLines : List PyVal → Except PyErr (List String)
  | [] => Except.ok []
  | PyVal.str s :: rest =>
    match dashLines rest with
    | Except.error e => Except.error e
    | Except.ok ls => Except.ok (("- " ++ s) :: ls)
  | _ :: _ => Except.error PyErr.typeError

/-- `"\n".join("- " + article_id for article_id in article_ids)` at line
96. -/
def pyJoinDashIds (ids : List PyVal) : Except PyErr String :=
  match dashLines ids with
  | Except.error e => Except.error e
  | Except.ok ls => Except.ok (String.intercalate "\n" ls)

/-- Python `summary + "..."`: string concatenation, a `TypeError` when the
left operand is not a string. -/
def pyAsStr : PyVal → Except PyErr String
  | .str s => Except.ok s
  | _ => Except.error PyErr.typeError

/-- `SearchAPITool.search` (lines 76-98), given the HTTP response the API
produced for the issued request.  Returns `some` of the formatted string,
`none` when the Python code returns `None`, or the raised exception. -/
def search (resp : HttpResponse) (llm : String → PyVal) (search_term : String) :
    Except PyErr (Option String) :=
  match send_post_request resp with
  | Option.none => Except.ok Option.none
  | Option.some sr =>
    if sr.truthy then
      match PyVal.getItem sr "results" with
      | Except.error e => Except.error e
      | Except.ok res =>
        match PyVal.getItem res "documents" with
        | Except.error e => Except.error e
        | Except.ok docs =>
          if docs.truthy then
            match pyIter docs with
            | Except.error e => Except.error e
            | Except.ok hits =>
              match hitIds hits with
              | Except.error e => Except.error e
              | Except.ok article_ids =>
                match hitTexts hits with
                | Except.error e => Except.error e
                | Except.ok results =>
                  match summarise_result llm search_term results with
                  | Except.error e => Except.error e
                  | Except.ok (_, summary) =>
                    match pyAsStr summary with
                    | Except.error e => Except.error e
                    | Except.ok s =>
                      match pyJoinDashIds article_ids with
                      | Except.error e => Except.error e
                      | Except.ok idLines =>
                        Except.ok (Option.some (s ++ "\n\nArticle IDs:\n" ++ idLines))
          else Except.ok Option.none
    else Except.ok Option.none

/-- `SearchAPITool._execute` (lines 66-74): run the search and fall back
to `f"No articles on {search_term}."` when the result is falsy. -/
def tool_execute (resp : HttpResponse) (llm : String → PyVal)
    (search_term : String) : Except PyErr String :=
  match search resp llm search_term with
  | Except.error e => Except.error e
  | Except.ok (Option.some s) =>
    if !s.isEmpty then Except.ok s
    else Except.ok ("No articles on " ++ search_term ++ ".")
  | Except.ok Option.none => Except.ok ("No articles on " ++ search_term ++ ".")

/-- The `results.documents` value of a response body, when the body has
the well-formed shape `{"results": {"documents": ...}}`. -/
def docsOf : PyVal → Option PyVal
  | .dict es =>
    match es.lookup "results" with
    | Option.some (.dict rs) => rs.lookup "documents"
    | _ => Option.none
  | _ => Option.none

/-- The configuration keys `_execute` reads through `get_tool_config`
(lines 67-68 of `searchapi_tool.py`). -/
def executeConfigKeys : List String := ["SEARCH_API_URL", "SEARCH_API_KEY"]

/-- The request `_execute` sends for a given configuration lookup
function: `search` is called with `config("SEARCH_API_URL")` and
`config("SEARCH_API_KEY")` (lines 67-70). -/
def executeRequest (config : String → String) (search_term : String) :
    PostRequest :=
  searchRequest (config "SEARCH_API_URL") (config "SEARCH_API_KEY") search_term

namespace MyToolkit

/-- `MyToolkit.get_env_keys` (lines 15-16 of `searchapi_toolkit.py`). -/
def get_env_keys : List String := []

end MyToolkit

/-- A language-model collaborator that returns the same value for every
prompt; used to instantiate concrete scenarios. -/
def constLlm (v : PyVal) : String → PyVal := fun _ => v

/-! ### Properties of the `str.replace` scan -/

/-- Replacing in the empty string gives the empty string, at any fuel. -/
theorem pyReplaceFuel_nil (f : Nat) (pat rep : List Char) :
    pyReplaceFuel f [] pat rep = [] := by
  cases f <;> rfl

/-- The fuel is irrelevant once it covers the length of the scanned
string. -/
theorem pyReplaceFuel_fuel_eq :
    ∀ (f1 : Nat) (s : List Char) (f2 : Nat) (pat rep : List Char),
      s.length ≤ f1 → s.length ≤ f2 →
      pyReplaceFuel f1 s pat rep = pyReplaceFuel f2 s pat rep := by
  intro f1
  induction f1 with
  | zero =>
    intro s f2 pat rep h1 _
    have hs : s = [] := by
      cases s with
      | nil => rfl
      | cons c r => simp at h1
    subst hs
    simp [pyReplaceFuel_nil]
  | succ g ih =>
    intro s f2 pat rep h1 h2
    cases s with
    | nil => simp [pyReplaceFuel_nil]
    | cons c rest =>
      cases f2 with
      | zero => simp at h2
      | succ f3 =>
        simp only [pyReplaceFuel]
        by_cases hc : (pat.isPrefixOf (c :: rest) && !pat.isEmpty) = true
        · rw [if_pos hc, if_pos hc]
          have hpat : pat ≠ [] := by
            intro hp
            subst hp
            simp at hc
          have hplen : 0 < pat.length := List.length_pos.mpr hpat
          have hdrop : ((c :: rest).drop pat.length).length ≤ rest.length := by
            simp only [List.length_drop, List.length_cons]
            omega
          have hlen1 : rest.length ≤ g := by
            simp only [List.length_cons] at h1
            omega
          have hlen2 : rest.length ≤ f3 := by
            simp only [List.length_cons] at h2
            omega
          rw [ih ((c :: rest).drop pat.length) f3 pat rep
            (le_trans hdrop hlen1) (le_trans hdrop hlen2)]
        · rw [if_neg hc, if_neg hc]
          have hlen1 : rest.length ≤ g := by
            simp only [List.length_cons] at h1
            omega
          have hlen2 : rest.length ≤ f3 := by
            simp only [List.length_cons] at h2
            omega
          rw [ih rest f3 pat rep hlen1 hlen2]

/-- Scan step when the pattern matches at the current position. -/
theorem pyReplace_cons_pos (c : Char) (rest pat rep : List Char)
    (h : (pat.isPrefixOf (c :: rest) && !pat.isEmpty) = true) :
    pyReplace (c :: rest) pat rep =
      rep ++ pyReplace ((c :: rest).drop pat.length) pat rep := by
  have hpat : pat ≠ [] := by
    intro hp
    subst hp
    simp at h
  have hplen : 0 < pat.length := List.length_pos.mpr hpat
  show pyReplaceFuel (c :: rest).length (c :: rest) pat rep = _
  simp only [List.length_cons, pyReplaceFuel]
  rw [if_pos h]
  congr 1
  exact pyReplaceFuel_fuel_eq rest.length ((c :: rest).drop pat.length)
    ((c :: rest).drop pat.length).length pat rep
    (by simp only [List.length_drop, List.length_cons]; omega) (le_refl _)

/-- Scan step when the pattern does not match at the current position. -/
theorem pyReplace_cons_neg (c : Char) (rest pat rep : List Char)
    (h : (pat.isPrefixOf (c :: rest) && !pat.isEmpty) = false) :
    pyReplace (c :: rest) pat rep = c :: pyReplace rest pat rep := by
  show pyReplaceFuel (c :: rest).length (c :: rest) pat rep = _
  simp only [List.length_cons, pyReplaceFuel]
  rw [if_neg (by rw [h]; exact Bool.false_ne_true)]
  rfl

/-- Unfolding of `occursIn` at a cons cell. -/
theorem occursIn_cons (pat : List Char) (c : Char) (t : List Char) :
    occursIn pat (c :: t) = (pat.isPrefixOf (c :: t) || occursIn pat t) := rfl

/-- An occurrence in the right part survives prepending on the left. -/
theorem occursIn_of_right (pat x : List Char) {y : List Char}
    (h : occursIn pat y = true) : occursIn pat (x ++ y) = true := by
  induction x with
  | nil => simpa using h
  | cons c x ih =>
    rw [List.cons_append, occursIn_cons, ih, Bool.or_true]

/-- A pattern that is a prefix of the string occurs in it. -/
theorem occursIn_of_pre {pat s : List Char} (h : pat <+: s) :
    occursIn pat s = true := by
  cases s with
  | nil =>
    have : pat = [] := List.prefix_nil.mp h
    subst this
    rfl
  | cons c rest =>
    rw [occursIn_cons, List.isPrefixOf_iff_prefix.mpr h, Bool.true_or]

/-- A pattern sandwiched between two segments occurs in the whole. -/
theorem occursIn_mid (x sub y : List Char) :
    occursIn sub (x ++ (sub ++ y)) = true :=
  occursIn_of_right sub x (occursIn_of_pre (List.prefix_append sub y))

/-- A pattern that prefixes some suffix of `s` occurs in `s`. -/
theorem occursIn_of_prefix_suffix {pat t s : List Char}
    (hp : pat <+: t) (hs : t <:+ s) : occursIn pat s = true := by
  induction s with
  | nil =>
    have ht : t = [] := List.suffix_nil.mp hs
    subst ht
    exact occursIn_of_pre hp
  | cons c s ih =>
    rcases List.suffix_cons_iff.mp hs with h | h
    · subst h
      rw [occursIn_cons, List.isPrefixOf_iff_prefix.mpr hp, Bool.true_or]
    · rw [occursIn_cons, ih h, Bool.or_true]

/-- If no character of `x` equals the pattern's first character, the
pattern matches at no position inside `x`, whatever follows. -/
theorem noHeadSide (ph : Char) (pt x z : List Char)
    (hx : ∀ c ∈ x, c ≠ ph) :
    ∀ t, t <:+ x → t ≠ [] → (ph :: pt).isPrefixOf (t ++ z) = false := by
  intro t hts htne
  cases t with
  | nil => exact absurd rfl htne
  | cons c t2 =>
    have hc : c ∈ x := hts.subset (by simp)
    have hne : (ph == c) = false := beq_eq_false_iff_ne.mpr (Ne.symm (hx c hc))
    rw [List.cons_append]
    show ((ph == c) && pt.isPrefixOf (t2 ++ z)) = false
    rw [hne, Bool.false_and]

/-- If the pattern neither occurs inside `S` nor can straddle the
boundary between `S` and `z`, it matches at no position inside `S`. -/
theorem noCross {pat : List Char} (z S : List Char)
    (hocc : occursIn pat S = false)
    (hb : ∀ k, k < pat.length → 0 < k → (pat.drop k).isPrefixOf z = false) :
    ∀ t, t <:+ S → t ≠ [] → pat.isPrefixOf (t ++ z) = false := by
  intro t hts htne
  cases hpb : pat.isPrefixOf (t ++ z) with
  | false => rfl
  | true =>
    exfalso
    have hpre : pat <+: t ++ z := List.isPrefixOf_iff_prefix.mp hpb
    rcases le_or_lt pat.length t.length with hle | hlt
    · have hpt : pat <+: t :=
        List.prefix_of_prefix_length_le hpre (List.prefix_append t z) hle
      have := occursIn_of_prefix_suffix hpt hts
      rw [hocc] at this
      exact Bool.false_ne_true this
    · have htp : t <+: pat :=
        List.prefix_of_prefix_length_le (List.prefix_append t z) hpre
          (Nat.le_of_lt hlt)
      obtain ⟨r, hr⟩ := htp
      have hrdrop : r = pat.drop t.length := by
        rw [← hr, List.drop_left]
      have hrz : r <+: z := by
        have : t ++ r <+: t ++ z := by rw [hr]; exact hpre
        exact (List.prefix_append_right_inj t).mp this
      have hfalse := hb t.length hlt (List.length_pos.mpr htne)
      rw [← hrdrop, List.isPrefixOf_iff_prefix.mpr hrz] at hfalse
      exact absurd hfalse (by decide)

/-- The scan walks over a segment in which the pattern matches at no
position, then continues on the rest. -/
theorem pyReplace_append_skip (pat rep z : List Char) :
    ∀ x : List Char,
      (∀ t, t <:+ x → t ≠ [] → pat.isPrefixOf (t ++ z) = false) →
      pyReplace (x ++ z) pat rep = x ++ pyReplace z pat rep := by
  intro x
  induction x with
  | nil =>
    intro _
    simp
  | cons c x ih =>
    intro h
    have hfalse : pat.isPrefixOf ((c :: x) ++ z) = false :=
      h (c :: x) (List.suffix_refl _) (by simp)
    rw [List.cons_append] at hfalse
    rw [List.cons_append,
      pyReplace_cons_neg c (x ++ z) pat rep (by rw [hfalse, Bool.false_and]),
      ih (fun t ht htne => h t (ht.trans (List.suffix_cons c x)) htne),
      List.cons_append]

/-- The scan fires exactly at an occurrence sitting at the front, emits
the replacement, and resumes after it. -/
theorem pyReplace_head_match (pat rep z : List Char) (hne : pat ≠ []) :
    pyReplace (pat ++ z) pat rep = rep ++ pyReplace z pat rep := by
  cases pat with
  | nil => exact absurd rfl hne
  | cons p pt =>
    have hpre : (p :: pt).isPrefixOf ((p :: pt) ++ z) = true :=
      List.isPrefixOf_iff_prefix.mpr (List.prefix_append _ _)
    rw [List.cons_append] at hpre ⊢
    rw [pyReplace_cons_pos p (pt ++ z) (p :: pt) rep
      (by rw [hpre]; rfl)]
    congr 1
    rw [show p :: (pt ++ z) = (p :: pt) ++ z from rfl, List.drop_left]

/-- If the pattern occurs nowhere in the string, the scan returns the
string unchanged. -/
theorem pyReplace_of_not_occursIn (pat rep s : List Char)
    (h : occursIn pat s = false) : pyReplace s pat rep = s := by
  have hne : pat ≠ [] := by
    intro hp
    subst hp
    cases s with
    | nil => simp [occursIn] at h
    | cons c rest =>
      rw [occursIn_cons] at h
      simp [List.isPrefixOf] at h
  have hside : ∀ t, t <:+ s → t ≠ [] → pat.isPrefixOf (t ++ ([] : List Char)) = false := by
    intro t hts htne
    rw [List.append_nil]
    cases hpb : pat.isPrefixOf t with
    | false => rfl
    | true =>
      exfalso
      have := occursIn_of_prefix_suffix (List.isPrefixOf_iff_prefix.mp hpb) hts
      rw [h] at this
      exact Bool.false_ne_true this
  have := pyReplace_append_skip pat rep [] s hside
  rw [List.append_nil] at this
  rw [this]
  rw [show pyReplace [] pat rep = [] from rfl, List.append_nil]

/-- If the pattern occurs somewhere, the scan fires at least once, so the
replacement text occurs in the output. -/
theorem occursIn_rep_pyReplaceFuel :
    ∀ (fuel : Nat) (s pat rep : List Char), s.length ≤ fuel → pat ≠ [] →
      occursIn pat s = true →
      occursIn rep (pyReplaceFuel fuel s pat rep) = true := by
  intro fuel
  induction fuel with
  | zero =>
    intro s pat rep hlen hne hocc
    have hs : s = [] := by
      cases s with
      | nil => rfl
      | cons c r => simp at hlen
    subst hs
    have : pat = [] := by simpa [occursIn, List.isEmpty_iff] using hocc
    exact absurd this hne
  | succ g ih =>
    intro s pat rep hlen hne hocc
    cases s with
    | nil =>
      have : pat = [] := by simpa [occursIn, List.isEmpty_iff] using hocc
      exact absurd this hne
    | cons c rest =>
      simp only [pyReplaceFuel]
      by_cases hc : (pat.isPrefixOf (c :: rest) && !pat.isEmpty) = true
      · rw [if_pos hc]
        exact occursIn_of_pre (List.prefix_append rep _)
      · rw [if_neg hc]
        have hempty : pat.isEmpty = false := by
          cases hp : pat.isEmpty with
          | false => rfl
          | true =>
            exact absurd (List.isEmpty_iff.mp hp) hne
        have hpre : pat.isPrefixOf (c :: rest) = false := by
          cases hq : pat.isPrefixOf (c :: rest) with
          | false => rfl
          | true =>
            exact absurd (by rw [hq, hempty]; rfl) hc
        have hocc' : occursIn pat rest = true := by
          rw [occursIn_cons, hpre, Bool.false_or] at hocc
          exact hocc
        have hlen' : rest.length ≤ g := by
          simp only [List.length_cons] at hlen
          omega
        rw [occursIn_cons, ih rest pat rep hlen' hne hocc', Bool.or_true]

/-- `pyReplace` version of `occursIn_rep_pyReplaceFuel`. -/
theorem occursIn_rep_pyReplace (s pat rep : List Char) (hne : pat ≠ [])
    (hocc : occursIn pat s = true) :
    occursIn rep (pyReplace s pat rep) = true :=
  occursIn_rep_pyReplaceFuel s.length s pat rep (le_refl _) hne hocc

/-! ### Decomposition of the prompt template around its placeholders -/

/-- Replacing `{snippets}` in the template splices the replacement text
between the template's first segment and the rest (the template contains
exactly one occurrence of `{snippets}`). -/
theorem tmpl_split_snippets (S : List Char) :
    pyReplace summarizePromptTemplate.data ("{snippets}".data) S =
      tmplA.data ++ (S ++ (tmplB.data ++ ("{query}".data ++ tmplC.data))) := rfl

/-- Replacing `{query}` in the tail segment left by
`tmpl_split_snippets` splices the replacement between `tmplB` and
`tmplC`. -/
theorem post_split_query (Q : List Char) :
    pyReplace (tmplB.data ++ ("{query}".data ++ tmplC.data)) ("{query}".data) Q =
      tmplB.data ++ (Q ++ tmplC.data) := rfl

/-- Replacing `{query}` directly in the template splices the replacement
text before the final segment, leaving `{snippets}` untouched. -/
theorem tmpl_split_query (Q : List Char) :
    pyReplace summarizePromptTemplate.data ("{query}".data) Q =
      (tmplA.data ++ ("{snippets}".data ++ tmplB.data)) ++ (Q ++ tmplC.data) := rfl

/-- Under the side condition that the snippet-list string does not
contain `{query}`, the assembled prompt is the five concatenated
segments: `tmplA`, the snippet string, `tmplB`, the query, `tmplC`. -/
theorem assemblePrompt_data (q : String) (sn : List PyVal)
    (hS : occursIn ("{query}".data) (pyStrList sn).data = false) :
    (assemblePrompt q sn).data =
      tmplA.data ++ ((pyStrList sn).data ++
        (tmplB.data ++ (q.data ++ tmplC.data))) := by
  have hpatQ : "{query}".data = Char.ofNat 123 :: "query\x7d".data := by decide
  have h1 : (assemblePrompt q sn).data =
      pyReplace
        (pyReplace summarizePromptTemplate.data ("{snippets}".data)
          (pyStrList sn).data)
        ("{query}".data) q.data := rfl
  rw [h1, tmpl_split_snippets]
  have hsideA : ∀ t, t <:+ tmplA.data → t ≠ [] →
      ("{query}".data).isPrefixOf
        (t ++ ((pyStrList sn).data ++
          (tmplB.data ++ ("{query}".data ++ tmplC.data)))) = false := by
    intro t ht htne
    rw [hpatQ]
    exact noHeadSide _ _ tmplA.data _ (by decide) t ht htne
  rw [pyReplace_append_skip ("{query}".data) q.data _ tmplA.data hsideA]
  have hsideS : ∀ t, t <:+ (pyStrList sn).data → t ≠ [] →
      ("{query}".data).isPrefixOf
        (t ++ (tmplB.data ++ ("{query}".data ++ tmplC.data))) = false :=
    noCross _ _ hS (by decide)
  rw [pyReplace_append_skip ("{query}".data) q.data _ (pyStrList sn).data hsideS]
  rw [post_split_query]

/-- Under the side conditions that the query does not contain
`{snippets}` and (implicitly, from the template) nothing else interferes,
substituting in the opposite order yields the same five segments. -/
theorem assemblePromptSwapped_data (q : String) (sn : List PyVal)
    (hQ : occursIn ("{snippets}".data) q.data = false) :
    (assemblePromptSwapped q sn).data =
      tmplA.data ++ ((pyStrList sn).data ++
        (tmplB.data ++ (q.data ++ tmplC.data))) := by
  have hpatS : "{snippets}".data = Char.ofNat 123 :: "snippets\x7d".data := by decide
  have h1 : (assemblePromptSwapped q sn).data =
      pyReplace
        (pyReplace summarizePromptTemplate.data ("{query}".data) q.data)
        ("{snippets}".data) (pyStrList sn).data := rfl
  rw [h1, tmpl_split_query]
  rw [show (tmplA.data ++ ("{snippets}".data ++ tmplB.data)) ++
        (q.data ++ tmplC.data) =
      tmplA.data ++ ("{snippets}".data ++
        (tmplB.data ++ (q.data ++ tmplC.data))) by
    simp [List.append_assoc]]
  have hsideA : ∀ t, t <:+ tmplA.data → t ≠ [] →
      ("{snippets}".data).isPrefixOf
        (t ++ ("{snippets}".data ++
          (tmplB.data ++ (q.data ++ tmplC.data)))) = false := by
    intro t ht htne
    rw [hpatS]
    exact noHeadSide _ _ tmplA.data _ (by decide) t ht htne
  rw [pyReplace_append_skip ("{snippets}".data) (pyStrList sn).data _
    tmplA.data hsideA]
  rw [pyReplace_head_match ("{snippets}".data) (pyStrList sn).data _ (by decide)]
  have hsideB : ∀ t, t <:+ tmplB.data → t ≠ [] →
      ("{snippets}".data).isPrefixOf (t ++ (q.data ++ tmplC.data)) = false := by
    intro t ht htne
    rw [hpatS]
    exact noHeadSide _ _ tmplB.data _ (by decide) t ht htne
  rw [pyReplace_append_skip ("{snippets}".data) (pyStrList sn).data _
    tmplB.data hsideB]
  have hsideQ : ∀ t, t <:+ q.data → t ≠ [] →
      ("{snippets}".data).isPrefixOf (t ++ tmplC.data) = false :=
    noCross _ _ hQ (by decide)
  rw [pyReplace_append_skip ("{snippets}".data) (pyStrList sn).data _
    q.data hsideQ]
  rw [pyReplace_of_not_occursIn ("{snippets}".data) (pyStrList sn).data
    tmplC.data (by decide)]

/-- The assembled prompt always contains the literal search term: the
template's `{query}` occurrence survives the `{snippets}` substitution,
so the second replacement fires at least once. -/
theorem assemble_contains_query (q : String) (sn : List PyVal) :
    strContains (assemblePrompt q sn) q = true := by
  show occursIn q.data (assemblePrompt q sn).data = true
  have h1 : (assemblePrompt q sn).data =
      pyReplace
        (tmplA.data ++ ((pyStrList sn).data ++
          (tmplB.data ++ ("{query}".data ++ tmplC.data))))
        ("{query}".data) q.data := by
    rw [show (assemblePrompt q sn).data =
        pyReplace
          (pyReplace summarizePromptTemplate.data ("{snippets}".data)
            (pyStrList sn).data)
          ("{query}".data) q.data from rfl, tmpl_split_snippets]
  rw [h1]
  apply occursIn_rep_pyReplace _ _ _ (by decide)
  rw [show tmplA.data ++ ((pyStrList sn).data ++
        (tmplB.data ++ ("{query}".data ++ tmplC.data))) =
      (tmplA.data ++ ((pyStrList sn).data ++ tmplB.data)) ++
        ("{query}".data ++ tmplC.data) by simp [List.append_assoc]]
  exact occursIn_mid _ _ _

/-! ### Pipeline lemmas -/

/-- A dict with a successful lookup is nonempty, hence truthy. -/
theorem truthy_of_lookup {es : List (String × PyVal)} {k : String} {v : PyVal}
    (h : es.lookup k = Option.some v) : (PyVal.dict es).truthy = true := by
  cases es with
  | nil => simp [List.lookup] at h
  | cons e es => simp [PyVal.truthy]

/-- Shape of a response body on which `docsOf` finds a `documents`
value. -/
theorem docsOf_some {body d : PyVal} (h : docsOf body = Option.some d) :
    ∃ es rs, body = PyVal.dict es ∧
      es.lookup "results" = Option.some (PyVal.dict rs) ∧
      rs.lookup "documents" = Option.some d := by
  cases body with
  | dict es =>
    cases hr : es.lookup "results" with
    | none => simp [docsOf, hr] at h
    | some rv =>
      cases rv with
      | dict rs => exact ⟨es, rs, rfl, hr, by simpa [docsOf, hr] using h⟩
      | none => simp [docsOf, hr] at h
      | str s => simp [docsOf, hr] at h
      | int n => simp [docsOf, hr] at h
      | list xs => simp [docsOf, hr] at h
  | none => simp [docsOf] at h
  | str s => simp [docsOf] at h
  | int n => simp [docsOf] at h
  | list xs => simp [docsOf] at h

/-- The generator items for a list of string ids. -/
theorem dashLines_map (ids : List String) :
    dashLines (ids.map PyVal.str) = Except.ok (ids.map fun i => "- " ++ i) := by
  induction ids with
  | nil => rfl
  | cons i ids ih => simp [dashLines, ih]

/-- The joined id block for a list of string ids. -/
theorem joinDash_ok (ids : List String) :
    pyJoinDashIds (ids.map PyVal.str) =
      Except.ok (String.intercalate "\n" (ids.map fun i => "- " ++ i)) := by
  simp [pyJoinDashIds, dashLines_map]

/-- A non-200 response makes `search` return `None`. -/
theorem search_non200 (resp : HttpResponse) (llm : String → PyVal)
    (term : String) (h : resp.status ≠ 200) :
    search resp llm term = Except.ok Option.none := by
  simp [search, send_post_request, h]

/-- A 200 response whose `results.documents` value is falsy (in
particular an empty list) makes `search` return `None`. -/
theorem search_falsy_docs (resp : HttpResponse) (llm : String → PyVal)
    (term : String) {d : PyVal} (h200 : resp.status = 200)
    (hd : docsOf resp.body = Option.some d) (hf : d.truthy = false) :
    search resp llm term = Except.ok Option.none := by
  obtain ⟨es, rs, hbody, h1, h2⟩ := docsOf_some hd
  have htr : (PyVal.dict es).truthy = true := truthy_of_lookup h1
  simp [search, send_post_request, h200, hbody, htr, PyVal.getItem, h1, h2, hf]

/-- The formatted output of a successful search-and-summarize run. -/
theorem search_success (resp : HttpResponse) (llm : String → PyVal)
    (term : String) (docs : List PyVal) (ids : List String)
    (texts : List PyVal) (S : String) (rep : Option PyVal)
    (h200 : resp.status = 200)
    (hd : docsOf resp.body = Option.some (PyVal.list docs))
    (hne : docs ≠ [])
    (hids : hitIds docs = Except.ok (ids.map PyVal.str))
    (htexts : hitTexts docs = Except.ok texts)
    (hllm : summariseHandle (llm (assemblePrompt term texts)) =
      Except.ok (rep, PyVal.str S)) :
    search resp llm term = Except.ok (Option.some
      (S ++ "\n\nArticle IDs:\n" ++
        String.intercalate "\n" (ids.map fun i => "- " ++ i))) := by
  obtain ⟨es, rs, hbody, h1, h2⟩ := docsOf_some hd
  have htr : (PyVal.dict es).truthy = true := truthy_of_lookup h1
  have htrd : (PyVal.list docs).truthy = true := by
    simp [PyVal.truthy, List.isEmpty_iff, hne]
  simp [search, send_post_request, h200, hbody, htr, PyVal.getItem, h1, h2,
    htrd, pyIter, hids, htexts, summarise_result, hllm, pyAsStr, joinDash_ok]

/-- `_execute` turns a `None` search result into the fallback message. -/
theorem execute_of_search_none (resp : HttpResponse) (llm : String → PyVal)
    (term : String) (h : search resp llm term = Except.ok Option.none) :
    tool_execute resp llm term =
      Except.ok ("No articles on " ++ term ++ ".") := by
  simp [tool_execute, h]

/-- `_execute` passes a truthy search result through unchanged. -/
theorem execute_of_search_some (resp : HttpResponse) (llm : String → PyVal)
    (term : String) (s : String)
    (h : search resp llm term = Except.ok (Option.some s))
    (hs : s.isEmpty = false) :
    tool_execute resp llm term = Except.ok s := by
  simp [tool_execute, h, hs]

/-- The formatted search output is never the empty string (its fixed
middle part is nonempty). -/
theorem formatted_nonempty (S X : String) :
    (S ++ "\n\nArticle IDs:\n" ++ X).isEmpty = false := by
  cases h : (S ++ "\n\nArticle IDs:\n" ++ X).isEmpty with
  | false => rfl
  | true =>
    exfalso
    have he : S ++ "\n\nArticle IDs:\n" ++ X = "" := (String.isEmpty_iff _).mp h
    have hlen := congrArg (fun s => s.data.length) he
    simp only [String.data_append, List.length_append, List.length_nil] at hlen
    have hmid : ("\n\nArticle IDs:\n".data).length = 15 := by decide
    simp only [hmid] at hlen
    omega

theorem summariseHandle_noerr_nocontent {es : List (String × PyVal)}
    (herr : es.lookup "error" = Option.none)
    (hc : es.lookup "content" = Option.none) :
    summariseHandle (PyVal.dict es) = Except.error PyErr.keyError := by
  simp [summariseHandle, pyInOp, PyVal.getItem, herr, hc]

theorem summariseHandle_noerr_content {es : List (String × PyVal)} {c : PyVal}
    (herr : es.lookup "error" = Option.none)
    (hc : es.lookup "content" = Option.some c) :
    summariseHandle (PyVal.dict es) = Except.ok (Option.none, c) := by
  simp [summariseHandle, pyInOp, PyVal.getItem, herr, hc]

theorem summariseHandle_err_nomsg {es : List (String × PyVal)} {e : PyVal}
    (herr : es.lookup "error" = Option.some e)
    (hm : es.lookup "message" = Option.none) :
    summariseHandle (PyVal.dict es) = Except.error PyErr.keyError := by
  simp [summariseHandle, pyInOp, PyVal.getItem, herr, hm]

theorem summariseHandle_err_msg_nocontent {es : List (String × PyVal)}
    {e m : PyVal}
    (herr : es.lookup "error" = Option.some e)
    (hm : es.lookup "message" = Option.some m)
    (hc : es.lookup "content" = Option.none) :
    summariseHandle (PyVal.dict es) = Except.error PyErr.keyError := by
  cases hmn : m.isNone <;>
    simp [summariseHandle, pyInOp, PyVal.getItem, herr, hm, hc, hmn]

theorem summariseHandle_err_msg_content {es : List (String × PyVal)}
    {e m c : PyVal}
    (herr : es.lookup "error" = Option.some e)
    (hm : es.lookup "message" = Option.some m)
    (hc : es.lookup "content" = Option.some c) :
    summariseHandle (PyVal.dict es) =
      Except.ok ((if m.isNone then Option.none else Option.some m), c) := by
  cases hmn : m.isNone <;>
    simp [summariseHandle, pyInOp, PyVal.getItem, herr, hm, hc, hmn]


/-! ### Claims -/

/-- C1: for every search term, if the search API returns zero documents
or responds with any non-200 HTTP status, the string returned by
`_execute` equals exactly `"No articles on {search_term}."`. -/
theorem C1_no_articles_message (resp : HttpResponse) (llm : String → PyVal)
    (term : String)
    (h : resp.status ≠ 200 ∨ docsOf resp.body = Option.some (PyVal.list [])) :
    tool_execute resp llm term =
      Except.ok ("No articles on " ++ term ++ ".") := by
  rcases h with h | h
  · exact execute_of_search_none _ _ _ (search_non200 _ _ _ h)
  · by_cases h200 : resp.status = 200
    · exact execute_of_search_none _ _ _ (search_falsy_docs _ _ _ h200 h rfl)
    · exact execute_of_search_none _ _ _ (search_non200 _ _ _ h200)

/-- Witness for C1: a concrete HTTP-500 response for the term
`inflation` yields exactly `No articles on inflation.`. -/
theorem C1_no_articles_message_witness :
    tool_execute ⟨500, PyVal.none⟩ (constLlm PyVal.none) "inflation" =
      Except.ok "No articles on inflation." :=
  C1_no_articles_message ⟨500, PyVal.none⟩ (constLlm PyVal.none) "inflation"
    (Or.inl (by decide))

/-- C2: for every non-empty documents list, when summarization succeeds
(the model handling returns a string `S`), the final string is `S`, a
blank line, `Article IDs:`, and one `- {id}` line per returned document,
with the ids in response order. -/
theorem C2_output_format (resp : HttpResponse) (llm : String → PyVal)
    (term : String) (docs : List PyVal) (ids : List String)
    (texts : List PyVal) (S : String) (rep : Option PyVal)
    (h200 : resp.status = 200)
    (hd : docsOf resp.body = Option.some (PyVal.list docs))
    (hne : docs ≠ [])
    (hids : hitIds docs = Except.ok (ids.map PyVal.str))
    (htexts : hitTexts docs = Except.ok texts)
    (hllm : summariseHandle (llm (assemblePrompt term texts)) =
      Except.ok (rep, PyVal.str S)) :
    tool_execute resp llm term = Except.ok
      (S ++ "\n\nArticle IDs:\n" ++
        String.intercalate "\n" (ids.map fun i => "- " ++ i)) :=
  execute_of_search_some _ _ _ _
    (search_success resp llm term docs ids texts S rep h200 hd hne hids
      htexts hllm)
    (formatted_nonempty _ _)

/-- Witness for C2: the spec's scenario with documents `a1`, `a2` ends in
`Article IDs:` followed by `- a1` and `- a2`. -/
theorem C2_output_format_witness :
    tool_execute
      ⟨200, PyVal.dict [("results", PyVal.dict [("documents", PyVal.list
        [PyVal.dict [("document_id", PyVal.str "a1"),
                     ("clean_text", PyVal.str "Prices rose.")],
         PyVal.dict [("document_id", PyVal.str "a2"),
                     ("clean_text", PyVal.str "Fed raised rates.")]])])]⟩
      (constLlm (PyVal.dict [("content", PyVal.str "SUM")])) "inflation" =
      Except.ok "SUM\n\nArticle IDs:\n- a1\n- a2" :=
  C2_output_format _ _ "inflation"
    [PyVal.dict [("document_id", PyVal.str "a1"),
                 ("clean_text", PyVal.str "Prices rose.")],
     PyVal.dict [("document_id", PyVal.str "a2"),
                 ("clean_text", PyVal.str "Fed raised rates.")]]
    ["a1", "a2"]
    [PyVal.str "Prices rose.", PyVal.str "Fed raised rates."]
    "SUM" Option.none rfl rfl (List.cons_ne_nil _ _) rfl rfl rfl

/-- C3 counterexample: for the search term `Q` and the single snippet
`{query}`, the assembled prompt does not contain the Python string form
of the snippet list (the second replacement rewrites the `{query}` token
inside the spliced snippet text), and performing the two replacements in
the opposite order yields a different prompt. -/
theorem C3_counterexample :
    strContains (assemblePrompt "Q" [PyVal.str "{query}"])
      (pyStrList [PyVal.str "{query}"]) = false ∧
    assemblePromptSwapped "Q" [PyVal.str "{query}"] ≠
      assemblePrompt "Q" [PyVal.str "{query}"] := by
  exact ⟨by decide, by decide⟩

/-- C3 (amended): the assembled prompt always contains the literal search
term; if the string form of the snippet list does not contain the token
`{query}`, the prompt also contains that string form literally; if in
addition the search term does not contain the token `{snippets}`, the two
replacement orders produce the same prompt. -/
theorem C3_prompt_assembly (q : String) (sn : List PyVal) :
    strContains (assemblePrompt q sn) q = true ∧
    (strContains (pyStrList sn) "{query}" = false →
      strContains (assemblePrompt q sn) (pyStrList sn) = true ∧
      (strContains q "{snippets}" = false →
        assemblePromptSwapped q sn = assemblePrompt q sn)) := by
  refine ⟨assemble_contains_query q sn, fun hS => ⟨?_, fun hQ => ?_⟩⟩
  · show occursIn (pyStrList sn).data (assemblePrompt q sn).data = true
    rw [assemblePrompt_data q sn hS]
    exact occursIn_mid tmplA.data _ _
  · apply String.ext
    rw [assemblePromptSwapped_data q sn hQ, assemblePrompt_data q sn hS]

/-- Witness for C3 (amended), at the spec's scenario inputs. -/
theorem C3_prompt_assembly_witness :
    strContains (assemblePrompt "inflation" [PyVal.str "Prices rose."])
      "inflation" = true ∧
    strContains (assemblePrompt "inflation" [PyVal.str "Prices rose."])
      (pyStrList [PyVal.str "Prices rose."]) = true ∧
    assemblePromptSwapped "inflation" [PyVal.str "Prices rose."] =
      assemblePrompt "inflation" [PyVal.str "Prices rose."] := by
  have h := C3_prompt_assembly "inflation" [PyVal.str "Prices rose."]
  exact ⟨h.1, (h.2 (by decide)).1, (h.2 (by decide)).2 (by decide)⟩

/-- C4 counterexample: the "no result" value for a well-formed 200
response with an empty `results.documents` list is `None` — exactly the
value returned for a transport failure (HTTP 500) — so a caller cannot
distinguish the two cases from the return value. -/
theorem C4_counterexample :
    search ⟨500, PyVal.none⟩ (constLlm PyVal.none) "inflation" =
      search
        ⟨200, PyVal.dict [("results", PyVal.dict [("documents", PyVal.list [])])]⟩
        (constLlm PyVal.none) "inflation" ∧
    search ⟨500, PyVal.none⟩ (constLlm PyVal.none) "inflation" =
      Except.ok Option.none := by
  exact ⟨by decide, by decide⟩

/-- C4 (amended): `search` returns the same value `None` both for a
transport failure (non-200 status) and for a 200 response whose
`results.documents` value is falsy (in particular empty), so the two
cases are not distinguishable from the return value; a 200 response whose
`results` dict lacks the `documents` key raises `KeyError` instead of
returning a signal. -/
theorem C4_no_result_signal (resp : HttpResponse) (llm : String → PyVal)
    (term : String) :
    (resp.status ≠ 200 → search resp llm term = Except.ok Option.none) ∧
    (∀ d : PyVal, resp.status = 200 → docsOf resp.body = Option.some d →
      d.truthy = false → search resp llm term = Except.ok Option.none) ∧
    (∀ es rs, resp.status = 200 → resp.body = PyVal.dict es →
      es.lookup "results" = Option.some (PyVal.dict rs) →
      rs.lookup "documents" = Option.none →
      search resp llm term = Except.error PyErr.keyError) := by
  refine ⟨fun h => search_non200 _ _ _ h,
    fun d h200 hd hf => search_falsy_docs _ _ _ h200 hd hf, ?_⟩
  intro es rs h200 hbody h1 h2
  have htr : (PyVal.dict es).truthy = true := truthy_of_lookup h1
  simp [search, send_post_request, h200, hbody, htr, PyVal.getItem, h1, h2]

/-- Witness for C4 (amended): concrete transport-failure, empty-result
and missing-`documents` responses. -/
theorem C4_no_result_signal_witness :
    search ⟨500, PyVal.none⟩ (constLlm PyVal.none) "t" =
      Except.ok Option.none ∧
    search
      ⟨200, PyVal.dict [("results", PyVal.dict [("documents", PyVal.list [])])]⟩
      (constLlm PyVal.none) "t" = Except.ok Option.none ∧
    search ⟨200, PyVal.dict [("results", PyVal.dict [])]⟩
      (constLlm PyVal.none) "t" = Except.error PyErr.keyError :=
  ⟨(C4_no_result_signal ⟨500, PyVal.none⟩ (constLlm PyVal.none) "t").1
      (by decide),
   (C4_no_result_signal _ (constLlm PyVal.none) "t").2.1 (PyVal.list [])
      rfl rfl rfl,
   (C4_no_result_signal _ (constLlm PyVal.none) "t").2.2
      [("results", PyVal.dict [])] [] rfl rfl rfl rfl⟩

/-- C5 counterexample: a 200 response whose single document lacks
`document_id` makes `_execute` raise `TypeError` (at
`"- " + article_id` with `article_id = None`) instead of returning a
string, even though the model summarization succeeded. -/
theorem C5_counterexample :
    tool_execute
      ⟨200, PyVal.dict [("results", PyVal.dict [("documents",
        PyVal.list [PyVal.dict [("clean_text", PyVal.str "t")]])])]⟩
      (constLlm (PyVal.dict [("content", PyVal.str "S")])) "x" =
      Except.error PyErr.typeError := by
  decide

/-- C5 (amended): `_execute` returns a string for every non-200 response,
and for every 200 response whose documents all carry a string
`document_id` and whose model response yields a string content (a missing
`clean_text` maps to `None` without failure); a document with no
`document_id` instead raises `TypeError`, as the counterexample shows. -/
theorem C5_always_string (resp : HttpResponse) (llm : String → PyVal)
    (term : String) :
    (resp.status ≠ 200 → ∃ s, tool_execute resp llm term = Except.ok s) ∧
    (∀ (docs : List PyVal) (ids : List String) (texts : List PyVal)
      (S : String) (rep : Option PyVal), resp.status = 200 →
      docsOf resp.body = Option.some (PyVal.list docs) →
      hitIds docs = Except.ok (ids.map PyVal.str) →
      hitTexts docs = Except.ok texts →
      summariseHandle (llm (assemblePrompt term texts)) =
        Except.ok (rep, PyVal.str S) →
      ∃ s, tool_execute resp llm term = Except.ok s) := by
  constructor
  · intro h
    exact ⟨_, execute_of_search_none _ _ _ (search_non200 _ _ _ h)⟩
  · intro docs ids texts S rep h200 hd hids htexts hllm
    by_cases hne : docs = []
    · subst hne
      exact ⟨_, execute_of_search_none _ _ _
        (search_falsy_docs _ _ _ h200 hd rfl)⟩
    · exact ⟨_, execute_of_search_some _ _ _ _
        (search_success resp llm term docs ids texts S rep h200 hd hne
          hids htexts hllm)
        (formatted_nonempty _ _)⟩

/-- Witness for C5 (amended), at a concrete transport failure. -/
theorem C5_always_string_witness :
    ∃ s, tool_execute ⟨500, PyVal.none⟩ (constLlm PyVal.none) "x" =
      Except.ok s :=
  (C5_always_string ⟨500, PyVal.none⟩ (constLlm PyVal.none) "x").1 (by decide)

/-- C6: `summarise_result` routes the model's message to the error
handler if and only if the model response has an `error` key together
with a non-`None` `message`; the routed message is exactly the response's
`message` value; and on a successful model response (no error flag, a
`content` value present) it returns the model's content. -/
theorem C6_error_routing (es : List (String × PyVal)) :
    (∀ rep c, summariseHandle (PyVal.dict es) = Except.ok (rep, c) →
      (rep.isSome = true ↔ (es.lookup "error").isSome = true ∧
        ∃ m, es.lookup "message" = Option.some m ∧ m.isNone = false)) ∧
    (∀ m c, summariseHandle (PyVal.dict es) = Except.ok (Option.some m, c) →
      es.lookup "message" = Option.some m) ∧
    ((es.lookup "error").isSome = false → ∀ c,
      es.lookup "content" = Option.some c →
      summariseHandle (PyVal.dict es) = Except.ok (Option.none, c)) := by
  refine ⟨?_, ?_, ?_⟩
  · intro rep c h
    cases herr : es.lookup "error" with
    | none =>
      cases hc : es.lookup "content" with
      | none => rw [summariseHandle_noerr_nocontent herr hc] at h; exact absurd h (by simp)
      | some c2 =>
        rw [summariseHandle_noerr_content herr hc] at h
        simp only [Except.ok.injEq, Prod.mk.injEq] at h
        obtain ⟨hr, hcc⟩ := h
        subst hr
        simp [herr]
    | some e =>
      cases hm : es.lookup "message" with
      | none => rw [summariseHandle_err_nomsg herr hm] at h; exact absurd h (by simp)
      | some m =>
        cases hc : es.lookup "content" with
        | none => rw [summariseHandle_err_msg_nocontent herr hm hc] at h; exact absurd h (by simp)
        | some c2 =>
          rw [summariseHandle_err_msg_content herr hm hc] at h
          simp only [Except.ok.injEq, Prod.mk.injEq] at h
          obtain ⟨hr, hcc⟩ := h
          cases hmn : m.isNone with
          | true =>
            rw [hmn, if_pos rfl] at hr
            subst hr
            simp [herr, hm, hmn]
          | false =>
            rw [hmn] at hr
            simp only [Bool.false_eq_true, if_false] at hr
            subst hr
            simp [herr, hm, hmn]
  · intro m c h
    cases herr : es.lookup "error" with
    | none =>
      cases hc : es.lookup "content" with
      | none => rw [summariseHandle_noerr_nocontent herr hc] at h; exact absurd h (by simp)
      | some c2 =>
        rw [summariseHandle_noerr_content herr hc] at h
        simp at h
    | some e =>
      cases hm : es.lookup "message" with
      | none => rw [summariseHandle_err_nomsg herr hm] at h; exact absurd h (by simp)
      | some m2 =>
        cases hc : es.lookup "content" with
        | none => rw [summariseHandle_err_msg_nocontent herr hm hc] at h; exact absurd h (by simp)
        | some c2 =>
          rw [summariseHandle_err_msg_content herr hm hc] at h
          cases hmn : m2.isNone with
          | true =>
            rw [hmn, if_pos rfl] at h
            simp at h
          | false =>
            rw [hmn] at h
            simp only [Bool.false_eq_true, if_false, Except.ok.injEq,
              Prod.mk.injEq, Option.some.injEq] at h
            exact congrArg Option.some h.1
  · intro herr2 c hc
    cases herr : es.lookup "error" with
    | none => exact summariseHandle_noerr_content herr hc
    | some e => rw [herr] at herr2; simp at herr2


/-- C9: `summarise_result` returns the value at key `content`
unconditionally — including after an error has been reported — so a model
response lacking a `content` key (or carrying an `error` flag but no
`message` key) makes the operation raise `KeyError` instead of returning
a value. -/
theorem C9_content_returned (es : List (String × PyVal)) :
    (∀ rep c, summariseHandle (PyVal.dict es) = Except.ok (rep, c) →
      es.lookup "content" = Option.some c) ∧
    (es.lookup "error" = Option.none → es.lookup "content" = Option.none →
      summariseHandle (PyVal.dict es) = Except.error PyErr.keyError) ∧
    (∀ e, es.lookup "error" = Option.some e → es.lookup "message" = Option.none →
      summariseHandle (PyVal.dict es) = Except.error PyErr.keyError) := by
  refine ⟨?_, ?_, ?_⟩
  · intro rep c h
    cases herr : es.lookup "error" with
    | none =>
      cases hc : es.lookup "content" with
      | none => rw [summariseHandle_noerr_nocontent herr hc] at h; exact absurd h (by simp)
      | some c2 =>
        rw [summariseHandle_noerr_content herr hc] at h
        simp only [Except.ok.injEq, Prod.mk.injEq] at h
        exact congrArg Option.some h.2
    | some e =>
      cases hm : es.lookup "message" with
      | none => rw [summariseHandle_err_nomsg herr hm] at h; exact absurd h (by simp)
      | some m =>
        cases hc : es.lookup "content" with
        | none => rw [summariseHandle_err_msg_nocontent herr hm hc] at h; exact absurd h (by simp)
        | some c2 =>
          rw [summariseHandle_err_msg_content herr hm hc] at h
          simp only [Except.ok.injEq, Prod.mk.injEq] at h
          exact congrArg Option.some h.2
  · intro herr hc
    exact summariseHandle_noerr_nocontent herr hc
  · intro e herr hm
    exact summariseHandle_err_nomsg herr hm

/-- Witness for C6: a successful model response returns its content with
nothing routed to the error handler. -/
theorem C6_error_routing_witness :
    summariseHandle (PyVal.dict [("content", PyVal.str "OK")]) =
      Except.ok (Option.none, PyVal.str "OK") :=
  (C6_error_routing [("content", PyVal.str "OK")]).2.2 rfl (PyVal.str "OK") rfl

/-- Witness for C9: a model response with an `error` flag but no
`message` key raises `KeyError`. -/
theorem C9_content_returned_witness :
    summariseHandle (PyVal.dict [("error", PyVal.str "e")]) =
      Except.error PyErr.keyError :=
  (C9_content_returned [("error", PyVal.str "e")]).2.2 (PyVal.str "e") rfl rfl

/-- C7: for every base URL, API key and search term, `search` issues one
POST request, to `{base_url}/document` with query parameters `offset=0`
and the fixed limit 5, with headers `x-api-key` set to the API key and
`Content-Type` set to `application/json`, and with body the JSON encoding
of `{"search_term": search_term}` (the model constructs exactly one
request per call by shape). -/
theorem C7_request_shape (base key term : String) :
    searchRequest base key term =
      { url := base ++ "/document?offset=0&limit=5"
        headers := [("x-api-key", key), ("Content-Type", "application/json")]
        body := "\x7b" ++ "\"search_term\"" ++ ": " ++ jsonQuote term ++ "\x7d" } := by
  have hq : jsonQuote "search_term" = "\"search_term\"" := by decide
  have hbody : jsonDumpsStringDict [("search_term", term)] =
      "\x7b" ++ "\"search_term\"" ++ ": " ++ jsonQuote term ++ "\x7d" := by
    show "\x7b" ++ (jsonQuote "search_term" ++ ": " ++ jsonQuote term) ++ "\x7d" = _
    rw [hq]
    simp only [String.append_assoc]
  show send_post_request_request _ _ _ = _
  unfold send_post_request_request
  rw [hbody]

/-- C8: for every API response containing `N` documents, the normalized
result consists of exactly `N` `(document_id, clean_text)` pairs, in
response order, with no deduplication: the id and text lists are the
elementwise field projections of the documents list. -/
theorem C8_normalized_pairs (docs : List PyVal) :
    (∀ d ∈ docs, d.isDict = true) →
    hitIds docs = Except.ok (docs.map fun d => pyGetD d "document_id") ∧
    hitTexts docs = Except.ok (docs.map fun d => pyGetD d "clean_text") ∧
    ((docs.map fun d => pyGetD d "document_id").zip
      (docs.map fun d => pyGetD d "clean_text")).length = docs.length := by
  induction docs with
  | nil =>
    intro _
    exact ⟨rfl, rfl, rfl⟩
  | cons d ds ih =>
    intro h
    have hd : d.isDict = true := h d (List.mem_cons_self d ds)
    have hrest := ih (fun x hx => h x (List.mem_cons_of_mem d hx))
    obtain ⟨h1, h2, _⟩ := hrest
    cases d with
    | dict es =>
      refine ⟨?_, ?_, ?_⟩
      · simp [hitIds, PyVal.getOpt, h1, pyGetD]
      · simp [hitTexts, PyVal.getOpt, h2, pyGetD]
      · simp [List.length_zip, List.length_map]
    | none => simp [PyVal.isDict] at hd
    | str s => simp [PyVal.isDict] at hd
    | int n => simp [PyVal.isDict] at hd
    | list xs => simp [PyVal.isDict] at hd

/-- Witness for C8, on two documents with the same id: both pairs are
kept, in order. -/
theorem C8_normalized_pairs_witness :
    hitIds [PyVal.dict [("document_id", PyVal.str "a1"),
                        ("clean_text", PyVal.str "t1")],
            PyVal.dict [("document_id", PyVal.str "a1"),
                        ("clean_text", PyVal.str "t2")]] =
      Except.ok ([PyVal.dict [("document_id", PyVal.str "a1"),
                              ("clean_text", PyVal.str "t1")],
                  PyVal.dict [("document_id", PyVal.str "a1"),
                              ("clean_text", PyVal.str "t2")]].map
        fun d => pyGetD d "document_id") ∧
    hitTexts [PyVal.dict [("document_id", PyVal.str "a1"),
                          ("clean_text", PyVal.str "t1")],
              PyVal.dict [("document_id", PyVal.str "a1"),
                          ("clean_text", PyVal.str "t2")]] =
      Except.ok ([PyVal.dict [("document_id", PyVal.str "a1"),
                              ("clean_text", PyVal.str "t1")],
                  PyVal.dict [("document_id", PyVal.str "a1"),
                              ("clean_text", PyVal.str "t2")]].map
        fun d => pyGetD d "clean_text") ∧
    (([PyVal.dict [("document_id", PyVal.str "a1"),
                   ("clean_text", PyVal.str "t1")],
       PyVal.dict [("document_id", PyVal.str "a1"),
                   ("clean_text", PyVal.str "t2")]].map
        fun d => pyGetD d "document_id").zip
      ([PyVal.dict [("document_id", PyVal.str "a1"),
                    ("clean_text", PyVal.str "t1")],
        PyVal.dict [("document_id", PyVal.str "a1"),
                    ("clean_text", PyVal.str "t2")]].map
        fun d => pyGetD d "clean_text")).length =
      [PyVal.dict [("document_id", PyVal.str "a1"),
                   ("clean_text", PyVal.str "t1")],
       PyVal.dict [("document_id", PyVal.str "a1"),
                   ("clean_text", PyVal.str "t2")]].length :=
  C8_normalized_pairs _ (by simp [List.forall_mem_cons, PyVal.isDict])

/-- C10: the toolkit's `get_env_keys` declares no required configuration
keys, even though `_execute` reads `SEARCH_API_URL` and `SEARCH_API_KEY`
on every invocation. -/
theorem C10_env_keys :
    MyToolkit.get_env_keys = ([] : List String) ∧
    executeConfigKeys = ["SEARCH_API_URL", "SEARCH_API_KEY"] ∧
    (executeConfigKeys.all fun k => !(MyToolkit.get_env_keys.contains k)) = true :=
  ⟨rfl, rfl, rfl⟩
